import Mathlib

/-!
Shallow embedding of the Propman property-management core
(src/core/models.py, src/core/views.py,
src/core/management/commands/mark_rent_late.py).

The relational store is modelled as a record of lists (`DB`); Django
querysets become filtered lists; `get_or_create` becomes a conditional
append; `transaction.atomic` plus the surrounding try/except becomes an
`Except`-valued loop whose error branch returns the pre-transaction
state.  Auto-now timestamps (`created_at`) and HTML rendering are not
modelled; monetary decimals are modelled as `Int` (an abstract exact
amount), dates as year/month/day triples of naturals.
-/

namespace Propman

/-- UserProfile.Role (models.py). -/
inductive Role
  | LANDLORD
  | MANAGER
  | TENANT
deriving DecidableEq, Repr

/-- RentPayment.Status (models.py). -/
inductive RentStatus
  | DUE
  | PAID
  | LATE
deriving DecidableEq, Repr

/-- Property.PropertyType (models.py). -/
inductive PropertyType
  | APARTMENT
  | HOUSE
  | ROOM
  | COMMERCIAL
deriving DecidableEq, Repr

/-- MaintenanceRequest.Priority (models.py). -/
inductive Priority
  | LOW
  | MEDIUM
  | HIGH
  | URGENT
deriving DecidableEq, Repr

/-- MaintenanceRequest.Status (models.py). -/
inductive MaintStatus
  | OPEN
  | IN_PROGRESS
  | RESOLVED
deriving DecidableEq, Repr

/-- Calendar date (datetime.date). -/
structure Date where
  year : Nat
  month : Nat
  day : Nat
deriving DecidableEq, Repr

/-- Strict calendar order on dates (`due_date__lt=today`). -/
def Date.isBefore (a b : Date) : Bool :=
  a.year < b.year ||
    (a.year == b.year &&
      (a.month < b.month || (a.month == b.month && a.day < b.day)))

/-- UserProfile row: one role per user (models.py). -/
structure UserProfileR where
  user : Nat
  role : Role
deriving DecidableEq, Repr

/-- Property row (models.py).  `owner` is the creating user's id. -/
structure PropertyR where
  id : Nat
  owner : Nat
  name : String
  address : String
  city : String
  country : String
  property_type : PropertyType
  notes : String
deriving DecidableEq, Repr

/-- Tenant row (models.py).  `user` is the optional linked account. -/
structure TenantR where
  id : Nat
  user : Option Nat
  property : Nat
  full_name : String
  email : String
  phone : String
  lease_start : Date
  lease_end : Option Date
  monthly_rent : Int
  deposit_amount : Option Int
  is_active : Bool
deriving DecidableEq, Repr

/-- RentPayment row (models.py). -/
structure RentPaymentR where
  id : Nat
  tenant : Nat
  period_month : Nat
  period_year : Nat
  due_date : Date
  amount_due : Int
  status : RentStatus
  paid_date : Option Date
  notes : String
deriving DecidableEq, Repr

/-- MaintenanceRequest row (models.py). -/
structure MaintenanceR where
  id : Nat
  property : Nat
  created_by : Nat
  title : String
  description : String
  priority : Priority
  status : MaintStatus
  vendor_name : String
  cost_estimate : Option Int
  resolved_at : Option Date
deriving DecidableEq, Repr

/-- The relational store: one list per table plus a fresh-id counter. -/
structure DB where
  profiles : List UserProfileR
  properties : List PropertyR
  tenants : List TenantR
  rentPayments : List RentPaymentR
  maintenance : List MaintenanceR
  nextId : Nat
deriving DecidableEq, Repr

/-- views.py `_get_role`: `UserProfile.objects.get_or_create(user=user)`
followed by reading `profile.role`.  The lazily created profile takes the
model default role LANDLORD.  Returns the role together with the
(possibly extended) store. -/
def get_role (db : DB) (u : Nat) : Role × DB :=
  match db.profiles.find? (fun p => p.user == u) with
  | some p => (p.role, db)
  | none =>
      (Role.LANDLORD,
        { db with profiles := db.profiles ++ [{ user := u, role := Role.LANDLORD }] })

/-- views.py `_can_manage`: role is LANDLORD or MANAGER. -/
def can_manage (db : DB) (u : Nat) : Bool × DB :=
  let rs := get_role db u
  (rs.1 == Role.LANDLORD || rs.1 == Role.MANAGER, rs.2)

/-- views.py `_property_queryset`: MANAGER sees all, TENANT sees
properties having a tenant row linked to their account, anyone else
(LANDLORD) sees properties they own. -/
def property_queryset (db : DB) (u : Nat) : List PropertyR × DB :=
  let rs := get_role db u
  let db1 := rs.2
  if rs.1 == Role.MANAGER then (db1.properties, db1)
  else if rs.1 == Role.TENANT then
    (db1.properties.filter
      (fun p => db1.tenants.any (fun t => t.property == p.id && t.user == some u)), db1)
  else (db1.properties.filter (fun p => p.owner == u), db1)

/-- views.py `_manageable_property_queryset`: empty unless `_can_manage`,
else `_property_queryset`. -/
def manageable_property_queryset (db : DB) (u : Nat) : List PropertyR × DB :=
  let cs := can_manage db u
  if !cs.1 then ([], cs.2)
  else property_queryset cs.2 u

/-- views.py `_tenant_queryset`. -/
def tenant_queryset (db : DB) (u : Nat) : List TenantR × DB :=
  let rs := get_role db u
  let db1 := rs.2
  if rs.1 == Role.MANAGER then (db1.tenants, db1)
  else if rs.1 == Role.TENANT then
    (db1.tenants.filter (fun t => t.user == some u), db1)
  else
    (db1.tenants.filter
      (fun t => db1.properties.any (fun p => p.id == t.property && p.owner == u)), db1)

/-- views.py `_rent_queryset`: payments whose tenant is in
`_tenant_queryset`. -/
def rent_queryset (db : DB) (u : Nat) : List RentPaymentR × DB :=
  let ts := tenant_queryset db u
  (ts.2.rentPayments.filter (fun rp => ts.1.any (fun t => t.id == rp.tenant)), ts.2)

/-- views.py `_maintenance_queryset`: requests whose property is in
`_property_queryset`. -/
def maintenance_queryset (db : DB) (u : Nat) : List MaintenanceR × DB :=
  let ps := property_queryset db u
  (ps.2.maintenance.filter (fun m => ps.1.any (fun p => p.id == m.property)), ps.2)

/-- Predicate of the `mark_rent_late` command queryset:
`status = DUE and due_date < today`. -/
def lateMatch (rp : RentPaymentR) (today : Date) : Bool :=
  rp.status == RentStatus.DUE && rp.due_date.isBefore today

/-- management command `mark_rent_late` (Command.handle): count the
matching rows; in dry-run mode mutate nothing, otherwise
`qs.update(status=LATE)`.  Returns the reported count and the store. -/
def mark_rent_late (db : DB) (today : Date) (dryRun : Bool) : Nat × DB :=
  let count := (db.rentPayments.filter (fun rp => lateMatch rp today)).length
  if dryRun then (count, db)
  else
    (count,
      { db with
        rentPayments :=
          db.rentPayments.map
            (fun rp => if lateMatch rp today then { rp with status := RentStatus.LATE } else rp) })

/-- HTTP request method (only the two the views distinguish). -/
inductive Method
  | GET
  | POST
deriving DecidableEq, Repr

/-- Outcome of a view call (rendering details abstracted away):
403 Forbidden, 404 NotFound, 302 redirect on success, a re-presented
form carrying validation errors, a freshly rendered form, or a plain
rendered page (detail / delete-confirmation). -/
inductive Response
  | forbidden
  | notFound
  | redirect
  | formWithErrors
  | formOk
  | page
deriving DecidableEq, Repr

/-- Client-supplied PropertyForm data (forms.py fields). -/
structure PropertyInput where
  name : String
  address : String
  city : String
  country : String
  property_type : PropertyType
  notes : String
deriving DecidableEq, Repr

/-- Client-supplied TenantForm data (forms.py fields; `property` is the
client-chosen foreign key). -/
structure TenantInput where
  property : Nat
  full_name : String
  email : String
  phone : String
  lease_start : Date
  lease_end : Option Date
  monthly_rent : Int
  deposit_amount : Option Int
  is_active : Bool
deriving DecidableEq, Repr

/-- Client-supplied RentPaymentForm data (forms.py fields; `tenant` is
the client-chosen foreign key). -/
structure RentInput where
  tenant : Nat
  period_month : Nat
  period_year : Nat
  due_date : Date
  amount_due : Int
  status : RentStatus
  paid_date : Option Date
  notes : String
deriving DecidableEq, Repr

/-- Client-supplied MaintenanceRequestForm data (forms.py fields). -/
structure MaintInput where
  property : Nat
  title : String
  description : String
  priority : Priority
  status : MaintStatus
  vendor_name : String
  cost_estimate : Option Int
  resolved_at : Option Date
deriving DecidableEq, Repr

/-- The (tenant, period_month, period_year) key lookup of the
`get_or_create` call: does a row for this key already exist? -/
def hasPeriod (db : DB) (t m y : Nat) : Bool :=
  db.rentPayments.any
    (fun rp => rp.tenant == t && rp.period_month == m && rp.period_year == y)

/-- `RentPayment.objects.get_or_create(tenant=…, period_month=…,
period_year=…, defaults=…)` inside tenant_create: append a fresh DUE row
unless one already exists for the (tenant, month, year) key. -/
def rentGetOrCreate (db : DB) (t m y : Nat) (due : Date) (amt : Int) : DB :=
  if hasPeriod db t m y then db
  else
    { db with
      rentPayments :=
        db.rentPayments ++
          [{ id := db.nextId, tenant := t, period_month := m, period_year := y,
             due_date := due, amount_due := amt, status := RentStatus.DUE,
             paid_date := none, notes := "" }],
      nextId := db.nextId + 1 }

/-- Month of schedule slot `i` for a generation starting at
(start_month, start_year): `((start_month - 1 + i) % 12) + 1`
(views.py tenant_create loop). -/
def periodMonth (sm : Nat) (i : Nat) : Nat := ((sm - 1 + i) % 12) + 1

/-- Year of schedule slot `i`:
`start_year + (start_month - 1 + i) // 12` (views.py tenant_create loop). -/
def periodYear (sm sy : Nat) (i : Nat) : Nat := sy + (sm - 1 + i) / 12

/-- One iteration of the schedule-generation loop body for slot `i`. -/
def scheduleStep (t : Nat) (rent : Int) (sm sy : Nat) (db : DB) (i : Nat) : DB :=
  rentGetOrCreate db t (periodMonth sm i) (periodYear sm sy i)
    { year := periodYear sm sy i, month := periodMonth sm i, day := 1 } rent

/-- The schedule-generation loop of views.py tenant_create
(`for i in range(6)`), run without storage faults. -/
def generateSchedule (db : DB) (t : Nat) (rent : Int) (sm sy : Nat) : DB :=
  (List.range 6).foldl (scheduleStep t rent sm sy) db

/-- The same loop threaded through a storage-fault oracle: `fail i` means
the i-th `get_or_create` raises, aborting the remaining iterations, as an
exception would inside the `transaction.atomic()` block. -/
def scheduleLoopE (t : Nat) (rent : Int) (sm sy : Nat) (fail : Nat → Bool) :
    List Nat → DB → Except Unit DB
  | [], db => Except.ok db
  | i :: is, db =>
      if fail i then Except.error ()
      else scheduleLoopE t rent sm sy fail is (scheduleStep t rent sm sy db i)

/-- views.py `tenant_create`.  `basicValid` is an oracle for the
form-validity of every field other than the queryset-restricted
`property` choice; since the view assigns
`form.fields["property"].queryset = allowed_properties`, `is_valid`
additionally requires the chosen property to lie in that queryset.
On success the tenant insert and six payment upserts run inside
`transaction.atomic()`; any raise rolls the store back and the except
branch re-presents the form with a single aggregate error. -/
def tenant_create (db : DB) (u : Nat) (method : Method) (input : TenantInput)
    (basicValid : Bool) (today : Date) (fail : Nat → Bool) : Response × DB :=
  let cs := can_manage db u
  if !cs.1 then (Response.forbidden, cs.2)
  else
    let aps := manageable_property_queryset cs.2 u
    let allowed := aps.1
    let db2 := aps.2
    match method with
    | Method.GET => (Response.formOk, db2)
    | Method.POST =>
        if basicValid && allowed.any (fun p => p.id == input.property) then
          if !(allowed.any (fun p => p.id == input.property)) then
            (Response.formWithErrors, db2)
          else
            let tid := db2.nextId
            let tenantRow : TenantR :=
              { id := tid, user := none, property := input.property,
                full_name := input.full_name, email := input.email,
                phone := input.phone, lease_start := input.lease_start,
                lease_end := input.lease_end, monthly_rent := input.monthly_rent,
                deposit_amount := input.deposit_amount, is_active := input.is_active }
            let dbT := { db2 with tenants := db2.tenants ++ [tenantRow], nextId := tid + 1 }
            match scheduleLoopE tid input.monthly_rent today.month today.year fail
                (List.range 6) dbT with
            | Except.ok db3 => (Response.redirect, db3)
            | Except.error _ => (Response.formWithErrors, db2)
        else (Response.formWithErrors, db2)

/-- views.py `property_create`: gate on `_can_manage`; on valid POST the
new row is saved with `owner = request.user`. -/
def property_create (db : DB) (u : Nat) (method : Method) (input : PropertyInput)
    (basicValid : Bool) : Response × DB :=
  let cs := can_manage db u
  if !cs.1 then (Response.forbidden, cs.2)
  else
    let db1 := cs.2
    match method with
    | Method.GET => (Response.formOk, db1)
    | Method.POST =>
        if basicValid then
          (Response.redirect,
            { db1 with
              properties :=
                db1.properties ++
                  [{ id := db1.nextId, owner := u, name := input.name,
                     address := input.address, city := input.city,
                     country := input.country, property_type := input.property_type,
                     notes := input.notes }],
              nextId := db1.nextId + 1 })
        else (Response.formWithErrors, db1)

/-- views.py `rent_create`: the tenant choice is restricted to
`_tenant_queryset` (both via the form queryset and the explicit
`.exists()` re-check); on valid POST the row is saved as submitted. -/
def rent_create (db : DB) (u : Nat) (method : Method) (input : RentInput)
    (basicValid : Bool) : Response × DB :=
  let cs := can_manage db u
  if !cs.1 then (Response.forbidden, cs.2)
  else
    let ts := tenant_queryset cs.2 u
    let allowed := ts.1
    let db2 := ts.2
    match method with
    | Method.GET => (Response.formOk, db2)
    | Method.POST =>
        if basicValid && allowed.any (fun t => t.id == input.tenant) then
          if !(allowed.any (fun t => t.id == input.tenant)) then
            (Response.formWithErrors, db2)
          else
            (Response.redirect,
              { db2 with
                rentPayments :=
                  db2.rentPayments ++
                    [{ id := db2.nextId, tenant := input.tenant,
                       period_month := input.period_month,
                       period_year := input.period_year, due_date := input.due_date,
                       amount_due := input.amount_due, status := input.status,
                       paid_date := input.paid_date, notes := input.notes }],
                nextId := db2.nextId + 1 })
        else (Response.formWithErrors, db2)

/-- views.py `maintenance_create`: the property choice is restricted to
`_manageable_property_queryset`; `created_by` is forced to the caller. -/
def maintenance_create (db : DB) (u : Nat) (method : Method) (input : MaintInput)
    (basicValid : Bool) : Response × DB :=
  let cs := can_manage db u
  if !cs.1 then (Response.forbidden, cs.2)
  else
    let aps := manageable_property_queryset cs.2 u
    let allowed := aps.1
    let db2 := aps.2
    match method with
    | Method.GET => (Response.formOk, db2)
    | Method.POST =>
        if basicValid && allowed.any (fun p => p.id == input.property) then
          if !(allowed.any (fun p => p.id == input.property)) then
            (Response.formWithErrors, db2)
          else
            (Response.redirect,
              { db2 with
                maintenance :=
                  db2.maintenance ++
                    [{ id := db2.nextId, property := input.property, created_by := u,
                       title := input.title, description := input.description,
                       priority := input.priority, status := input.status,
                       vendor_name := input.vendor_name,
                       cost_estimate := input.cost_estimate,
                       resolved_at := input.resolved_at }],
                nextId := db2.nextId + 1 })
        else (Response.formWithErrors, db2)

/-- In-place update of the property row `pk` from form data; the `owner`
field is not on the form, so it is untouched. -/
def updateProperty (db : DB) (pk : Nat) (input : PropertyInput) : DB :=
  { db with
    properties :=
      db.properties.map
        (fun p =>
          if p.id == pk then
            { p with name := input.name, address := input.address, city := input.city,
                     country := input.country, property_type := input.property_type,
                     notes := input.notes }
          else p) }

/-- In-place update of the tenant row `pk` from form data; the linked
`user` field is not on the form, so it is untouched. -/
def updateTenant (db : DB) (pk : Nat) (input : TenantInput) : DB :=
  { db with
    tenants :=
      db.tenants.map
        (fun t =>
          if t.id == pk then
            { t with property := input.property, full_name := input.full_name,
                     email := input.email, phone := input.phone,
                     lease_start := input.lease_start, lease_end := input.lease_end,
                     monthly_rent := input.monthly_rent,
                     deposit_amount := input.deposit_amount,
                     is_active := input.is_active }
          else t) }

/-- In-place update of the rent-payment row `pk` from form data (every
RentPaymentForm field, the tenant key included). -/
def updateRent (db : DB) (pk : Nat) (input : RentInput) : DB :=
  { db with
    rentPayments :=
      db.rentPayments.map
        (fun rp =>
          if rp.id == pk then
            { rp with tenant := input.tenant, period_month := input.period_month,
                      period_year := input.period_year, due_date := input.due_date,
                      amount_due := input.amount_due, status := input.status,
                      paid_date := input.paid_date, notes := input.notes }
          else rp) }

/-- In-place update of the maintenance row `pk`; `created_by` is
reassigned from the existing row by the view, so it is untouched. -/
def updateMaint (db : DB) (pk : Nat) (input : MaintInput) : DB :=
  { db with
    maintenance :=
      db.maintenance.map
        (fun m =>
          if m.id == pk then
            { m with property := input.property, title := input.title,
                     description := input.description, priority := input.priority,
                     status := input.status, vendor_name := input.vendor_name,
                     cost_estimate := input.cost_estimate,
                     resolved_at := input.resolved_at }
          else m) }

/-- views.py `property_edit`: `_can_manage` gate, then
`get_object_or_404(_property_queryset(user), pk=pk)`. -/
def property_edit (db : DB) (u : Nat) (method : Method) (pk : Nat)
    (input : PropertyInput) (basicValid : Bool) : Response × DB :=
  let cs := can_manage db u
  if !cs.1 then (Response.forbidden, cs.2)
  else
    let ps := property_queryset cs.2 u
    let db2 := ps.2
    match ps.1.find? (fun p => p.id == pk) with
    | none => (Response.notFound, db2)
    | some _ =>
        match method with
        | Method.GET => (Response.formOk, db2)
        | Method.POST =>
            if basicValid then (Response.redirect, updateProperty db2 pk input)
            else (Response.formWithErrors, db2)

/-- views.py `tenant_edit`: scoped lookup, then the same
queryset-restricted property choice as tenant_create. -/
def tenant_edit (db : DB) (u : Nat) (method : Method) (pk : Nat)
    (input : TenantInput) (basicValid : Bool) : Response × DB :=
  let cs := can_manage db u
  if !cs.1 then (Response.forbidden, cs.2)
  else
    let ts := tenant_queryset cs.2 u
    match ts.1.find? (fun t => t.id == pk) with
    | none => (Response.notFound, ts.2)
    | some _ =>
        let aps := manageable_property_queryset ts.2 u
        let allowed := aps.1
        let db3 := aps.2
        match method with
        | Method.GET => (Response.formOk, db3)
        | Method.POST =>
            if basicValid && allowed.any (fun p => p.id == input.property) then
              if !(allowed.any (fun p => p.id == input.property)) then
                (Response.formWithErrors, db3)
              else (Response.redirect, updateTenant db3 pk input)
            else (Response.formWithErrors, db3)

/-- views.py `rent_edit`: scoped lookup, tenant choice restricted to
`_tenant_queryset`. -/
def rent_edit (db : DB) (u : Nat) (method : Method) (pk : Nat)
    (input : RentInput) (basicValid : Bool) : Response × DB :=
  let cs := can_manage db u
  if !cs.1 then (Response.forbidden, cs.2)
  else
    let rs := rent_queryset cs.2 u
    match rs.1.find? (fun rp => rp.id == pk) with
    | none => (Response.notFound, rs.2)
    | some _ =>
        let ts := tenant_queryset rs.2 u
        let allowed := ts.1
        let db3 := ts.2
        match method with
        | Method.GET => (Response.formOk, db3)
        | Method.POST =>
            if basicValid && allowed.any (fun t => t.id == input.tenant) then
              if !(allowed.any (fun t => t.id == input.tenant)) then
                (Response.formWithErrors, db3)
              else (Response.redirect, updateRent db3 pk input)
            else (Response.formWithErrors, db3)

/-- views.py `maintenance_edit`: scoped lookup, property choice
restricted to `_manageable_property_queryset`. -/
def maintenance_edit (db : DB) (u : Nat) (method : Method) (pk : Nat)
    (input : MaintInput) (basicValid : Bool) : Response × DB :=
  let cs := can_manage db u
  if !cs.1 then (Response.forbidden, cs.2)
  else
    let ms := maintenance_queryset cs.2 u
    match ms.1.find? (fun m => m.id == pk) with
    | none => (Response.notFound, ms.2)
    | some _ =>
        let aps := manageable_property_queryset ms.2 u
        let allowed := aps.1
        let db3 := aps.2
        match method with
        | Method.GET => (Response.formOk, db3)
        | Method.POST =>
            if basicValid && allowed.any (fun p => p.id == input.property) then
              if !(allowed.any (fun p => p.id == input.property)) then
                (Response.formWithErrors, db3)
              else (Response.redirect, updateMaint db3 pk input)
            else (Response.formWithErrors, db3)

/-- Cascade delete of a property (models.py `on_delete=CASCADE` edges):
its tenants go, with them their rent payments, and its maintenance
requests go. -/
def deletePropertyCascade (db : DB) (pid : Nat) : DB :=
  let tids := (db.tenants.filter (fun t => t.property == pid)).map (fun t => t.id)
  { db with
    properties := db.properties.filter (fun p => !(p.id == pid)),
    tenants := db.tenants.filter (fun t => !(t.property == pid)),
    rentPayments := db.rentPayments.filter (fun rp => !(tids.contains rp.tenant)),
    maintenance := db.maintenance.filter (fun m => !(m.property == pid)) }

/-- Cascade delete of a tenant: its rent payments go with it. -/
def deleteTenantCascade (db : DB) (tid : Nat) : DB :=
  { db with
    tenants := db.tenants.filter (fun t => !(t.id == tid)),
    rentPayments := db.rentPayments.filter (fun rp => !(rp.tenant == tid)) }

/-- views.py `property_delete`: scoped lookup; POST deletes and
redirects, anything else renders the confirmation page. -/
def property_delete (db : DB) (u : Nat) (method : Method) (pk : Nat) : Response × DB :=
  let cs := can_manage db u
  if !cs.1 then (Response.forbidden, cs.2)
  else
    let ps := property_queryset cs.2 u
    let db2 := ps.2
    match ps.1.find? (fun p => p.id == pk) with
    | none => (Response.notFound, db2)
    | some _ =>
        match method with
        | Method.POST => (Response.redirect, deletePropertyCascade db2 pk)
        | Method.GET => (Response.page, db2)

/-- views.py `tenant_delete`. -/
def tenant_delete (db : DB) (u : Nat) (method : Method) (pk : Nat) : Response × DB :=
  let cs := can_manage db u
  if !cs.1 then (Response.forbidden, cs.2)
  else
    let ts := tenant_queryset cs.2 u
    let db2 := ts.2
    match ts.1.find? (fun t => t.id == pk) with
    | none => (Response.notFound, db2)
    | some _ =>
        match method with
        | Method.POST => (Response.redirect, deleteTenantCascade db2 pk)
        | Method.GET => (Response.page, db2)

/-- views.py `rent_delete`. -/
def rent_delete (db : DB) (u : Nat) (method : Method) (pk : Nat) : Response × DB :=
  let cs := can_manage db u
  if !cs.1 then (Response.forbidden, cs.2)
  else
    let rs := rent_queryset cs.2 u
    let db2 := rs.2
    match rs.1.find? (fun rp => rp.id == pk) with
    | none => (Response.notFound, db2)
    | some _ =>
        match method with
        | Method.POST =>
            (Response.redirect,
              { db2 with rentPayments := db2.rentPayments.filter (fun rp => !(rp.id == pk)) })
        | Method.GET => (Response.page, db2)

/-- views.py `maintenance_delete`. -/
def maintenance_delete (db : DB) (u : Nat) (method : Method) (pk : Nat) : Response × DB :=
  let cs := can_manage db u
  if !cs.1 then (Response.forbidden, cs.2)
  else
    let ms := maintenance_queryset cs.2 u
    let db2 := ms.2
    match ms.1.find? (fun m => m.id == pk) with
    | none => (Response.notFound, db2)
    | some _ =>
        match method with
        | Method.POST =>
            (Response.redirect,
              { db2 with maintenance := db2.maintenance.filter (fun m => !(m.id == pk)) })
        | Method.GET => (Response.page, db2)

/-- views.py `properties_list`: the role-scoped property queryset
(ordering by the unmodelled creation timestamp is dropped). -/
def properties_list (db : DB) (u : Nat) : List PropertyR × DB :=
  property_queryset db u

/-- views.py `property_detail`: scoped `get_object_or_404`, then a
rendered page (its aggregate sums do not change the store). -/
def property_detail (db : DB) (u : Nat) (pk : Nat) : Response × DB :=
  let ps := property_queryset db u
  match ps.1.find? (fun p => p.id == pk) with
  | none => (Response.notFound, ps.2)
  | some _ => (Response.page, ps.2)

/-- The row slot `i` of a schedule generation that starts allocating ids
at `n`: the record the i-th `get_or_create` inserts when absent. -/
def scheduleRow (t : Nat) (rent : Int) (sm sy : Nat) (n : Nat) (i : Nat) : RentPaymentR :=
  { id := n, tenant := t, period_month := periodMonth sm i, period_year := periodYear sm sy i,
    due_date := { year := periodYear sm sy i, month := periodMonth sm i, day := 1 },
    amount_due := rent, status := RentStatus.DUE, paid_date := none, notes := "" }

/-- The rows a fault-free generation run appends for the slot list `is`,
ids allocated consecutively from `n`. -/
def scheduleRows (t : Nat) (rent : Int) (sm sy : Nat) (n : Nat) : List Nat → List RentPaymentR
  | [] => []
  | i :: is => scheduleRow t rent sm sy n i :: scheduleRows t rent sm sy (n + 1) is

/-- Two rent rows differ on the unique (tenant, period_month,
period_year) key of models.py `RentPayment.Meta.unique_together`. -/
abbrev keyDistinct (a b : RentPaymentR) : Prop :=
  ¬(a.tenant = b.tenant ∧ a.period_month = b.period_month ∧ a.period_year = b.period_year)

/-- Sample property owned by user 1. -/
def exProperty10 : PropertyR :=
  { id := 10, owner := 1, name := "Hauptquartier", address := "Hauptstr 5", city := "Berlin",
    country := "Germany", property_type := PropertyType.APARTMENT, notes := "" }

/-- Sample property owned by user 2. -/
def exProperty11 : PropertyR :=
  { id := 11, owner := 2, name := "Nebenhaus", address := "Nebenweg 2", city := "Bonn",
    country := "Germany", property_type := PropertyType.HOUSE, notes := "" }

/-- Sample tenant on property 10, linked to user account 4. -/
def exTenant20 : TenantR :=
  { id := 20, user := some 4, property := 10, full_name := "Ana Alvarez", email := "",
    phone := "", lease_start := { year := 2025, month := 1, day := 1 }, lease_end := none,
    monthly_rent := 1000, deposit_amount := none, is_active := true }

/-- Sample rent row for tenant 20, still due since February 2025. -/
def exRent25 : RentPaymentR :=
  { id := 25, tenant := 20, period_month := 2, period_year := 2025,
    due_date := { year := 2025, month := 2, day := 1 }, amount_due := 1000,
    status := RentStatus.DUE, paid_date := none, notes := "" }

/-- Sample maintenance request on property 10. -/
def exMaint26 : MaintenanceR :=
  { id := 26, property := 10, created_by := 1, title := "Leak", description := "Kitchen leak",
    priority := Priority.HIGH, status := MaintStatus.OPEN, vendor_name := "",
    cost_estimate := none, resolved_at := none }

/-- Sample store: landlords 1 and 2, manager 3, tenant-role user 4 who is
the account of tenant row 20 on landlord 1's property 10. -/
def exScopeDb : DB :=
  { profiles :=
      [{ user := 1, role := Role.LANDLORD }, { user := 2, role := Role.LANDLORD },
       { user := 3, role := Role.MANAGER }, { user := 4, role := Role.TENANT }],
    properties := [exProperty10, exProperty11],
    tenants := [exTenant20],
    rentPayments := [exRent25],
    maintenance := [exMaint26],
    nextId := 30 }

/-- Sample store without any profile rows (for the lazy-default claim). -/
def exNoProfileDb : DB :=
  { profiles := [], properties := [exProperty10, exProperty11], tenants := [exTenant20],
    rentPayments := [], maintenance := [], nextId := 40 }

/-- Sample TenantForm submission targeting property 10. -/
def exTenantInput : TenantInput :=
  { property := 10, full_name := "Bo Berg", email := "", phone := "",
    lease_start := { year := 2025, month := 11, day := 3 }, lease_end := none,
    monthly_rent := 1000, deposit_amount := none, is_active := true }

/-- Sample TenantForm submission targeting property 11 (outside landlord
1's manageable set). -/
def exTenantInputBadFk : TenantInput :=
  { exTenantInput with property := 11 }

/-- Sample PropertyForm submission. -/
def exPropertyInput : PropertyInput :=
  { name := "Altbau", address := "Ring 9", city := "Mainz", country := "Germany",
    property_type := PropertyType.ROOM, notes := "" }

/-- Sample RentPaymentForm submission referring to a nonexistent tenant
id 99. -/
def exRentInputBadFk : RentInput :=
  { tenant := 99, period_month := 3, period_year := 2025,
    due_date := { year := 2025, month := 3, day := 1 }, amount_due := 1000,
    status := RentStatus.DUE, paid_date := none, notes := "" }

/-- Sample MaintenanceRequestForm submission targeting property 11
(outside landlord 1's manageable set). -/
def exMaintInputBadFk : MaintInput :=
  { property := 11, title := "Paint", description := "Repaint hall",
    priority := Priority.LOW, status := MaintStatus.OPEN, vendor_name := "",
    cost_estimate := none, resolved_at := none }

/-! Helper lemmas about role resolution and queryset state. -/

theorem get_role_found {db : DB} {u : Nat} {pr : UserProfileR}
    (h : db.profiles.find? (fun p => p.user == u) = some pr) :
    get_role db u = (pr.role, db) := by
  simp [get_role, h]

theorem can_manage_found {db : DB} {u : Nat} {pr : UserProfileR}
    (h : db.profiles.find? (fun p => p.user == u) = some pr) :
    can_manage db u = (pr.role == Role.LANDLORD || pr.role == Role.MANAGER, db) := by
  simp [can_manage, get_role_found h]

theorem can_manage_true_state {db : DB} {u : Nat} {pr : UserProfileR}
    (h : db.profiles.find? (fun p => p.user == u) = some pr)
    (hr : pr.role = Role.LANDLORD ∨ pr.role = Role.MANAGER) :
    can_manage db u = (true, db) := by
  rw [can_manage_found h]
  rcases hr with hr | hr <;> simp [hr]

theorem can_manage_false_state {db : DB} {u : Nat}
    (h : (can_manage db u).1 = false) : can_manage db u = (false, db) := by
  cases hf : db.profiles.find? (fun p => p.user == u) with
  | none => simp [can_manage, get_role, hf] at h
  | some pr => rw [can_manage_found hf] at h ⊢; simp only at h; rw [h]

theorem property_queryset_snd {db : DB} {u : Nat} {pr : UserProfileR}
    (h : db.profiles.find? (fun p => p.user == u) = some pr) :
    (property_queryset db u).2 = db := by
  simp only [property_queryset, get_role_found h]
  split <;> (try split) <;> rfl

theorem tenant_queryset_snd {db : DB} {u : Nat} {pr : UserProfileR}
    (h : db.profiles.find? (fun p => p.user == u) = some pr) :
    (tenant_queryset db u).2 = db := by
  simp only [tenant_queryset, get_role_found h]
  split <;> (try split) <;> rfl

theorem rent_queryset_snd {db : DB} {u : Nat} {pr : UserProfileR}
    (h : db.profiles.find? (fun p => p.user == u) = some pr) :
    (rent_queryset db u).2 = db := by
  simp only [rent_queryset, tenant_queryset_snd h]

theorem maintenance_queryset_snd {db : DB} {u : Nat} {pr : UserProfileR}
    (h : db.profiles.find? (fun p => p.user == u) = some pr) :
    (maintenance_queryset db u).2 = db := by
  simp only [maintenance_queryset, property_queryset_snd h]

theorem manageable_property_queryset_snd {db : DB} {u : Nat} {pr : UserProfileR}
    (h : db.profiles.find? (fun p => p.user == u) = some pr) :
    (manageable_property_queryset db u).2 = db := by
  simp only [manageable_property_queryset, can_manage_found h]
  split
  · rfl
  · exact property_queryset_snd h

theorem landlord_visible {db : DB} {u : Nat}
    (h : db.profiles.find? (fun p => p.user == u) = some { user := u, role := Role.LANDLORD })
    (p : PropertyR) :
    p ∈ (property_queryset db u).1 ↔ p ∈ db.properties ∧ p.owner = u := by
  simp [property_queryset, get_role_found h, List.mem_filter]

/-- Claim C2: the visible Property set is determined by role — a MANAGER
sees the full property collection; a LANDLORD sees exactly the
properties they own (hence two distinct landlords have disjoint visible
sets); a TENANT sees exactly the properties where one of their tenant
rows lives. -/
theorem claim_C2 (db : DB) (u : Nat) :
    (db.profiles.find? (fun p => p.user == u) = some { user := u, role := Role.MANAGER } →
      (property_queryset db u).1 = db.properties) ∧
    (db.profiles.find? (fun p => p.user == u) = some { user := u, role := Role.LANDLORD } →
      ∀ p : PropertyR, p ∈ (property_queryset db u).1 ↔ p ∈ db.properties ∧ p.owner = u) ∧
    (db.profiles.find? (fun p => p.user == u) = some { user := u, role := Role.TENANT } →
      ∀ p : PropertyR, p ∈ (property_queryset db u).1 ↔
        p ∈ db.properties ∧ ∃ t ∈ db.tenants, t.property = p.id ∧ t.user = some u) ∧
    (∀ v : Nat, u ≠ v →
      db.profiles.find? (fun p => p.user == u) = some { user := u, role := Role.LANDLORD } →
      db.profiles.find? (fun p => p.user == v) = some { user := v, role := Role.LANDLORD } →
      ∀ p : PropertyR, p ∈ (property_queryset db u).1 → p ∉ (property_queryset db v).1) := by
  refine ⟨fun h => ?_, fun h p => landlord_visible h p, fun h p => ?_,
    fun v huv hu hv p hp hq => ?_⟩
  · simp [property_queryset, get_role_found h]
  · simp [property_queryset, get_role_found h, List.mem_filter, List.any_eq_true]
  · have h1 : p.owner = u := ((landlord_visible hu p).mp hp).2
    have h2 : p.owner = v := ((landlord_visible hv p).mp hq).2
    exact huv (h1 ▸ h2)

/-- Witness for claim C2 on the sample store: manager 3 sees both
properties, landlord 1 sees exactly property 10, tenant-role user 4 sees
exactly property 10, and landlords 1 and 2 have disjoint visible sets. -/
theorem claim_C2_witness :
    (property_queryset exScopeDb 3).1 = exScopeDb.properties ∧
    (exProperty10 ∈ (property_queryset exScopeDb 1).1 ↔
      exProperty10 ∈ exScopeDb.properties ∧ exProperty10.owner = 1) ∧
    (exProperty10 ∈ (property_queryset exScopeDb 4).1 ↔
      exProperty10 ∈ exScopeDb.properties ∧
        ∃ t ∈ exScopeDb.tenants, t.property = exProperty10.id ∧ t.user = some 4) ∧
    exProperty10 ∉ (property_queryset exScopeDb 2).1 := by
  refine ⟨(claim_C2 exScopeDb 3).1 (by rfl), (claim_C2 exScopeDb 1).2.1 (by rfl) exProperty10,
    (claim_C2 exScopeDb 4).2.2.1 (by rfl) exProperty10,
    (claim_C2 exScopeDb 1).2.2.2 2 (by decide) (by rfl) (by rfl) exProperty10 ?_⟩
  decide

/-- Claim C3: `can_manage` holds exactly when the resolved role is
LANDLORD or MANAGER, and every mutation endpoint invoked by a user for
whom it is false answers Forbidden and leaves the store untouched. -/
theorem claim_C3 (db : DB) (u : Nat) :
    ((can_manage db u).1 = true ↔
      ((get_role db u).1 = Role.LANDLORD ∨ (get_role db u).1 = Role.MANAGER)) ∧
    ((can_manage db u).1 = false →
      (∀ method input v, property_create db u method input v = (Response.forbidden, db)) ∧
      (∀ method input v today fail,
        tenant_create db u method input v today fail = (Response.forbidden, db)) ∧
      (∀ method input v, rent_create db u method input v = (Response.forbidden, db)) ∧
      (∀ method input v, maintenance_create db u method input v = (Response.forbidden, db)) ∧
      (∀ method pk input v, property_edit db u method pk input v = (Response.forbidden, db)) ∧
      (∀ method pk input v, tenant_edit db u method pk input v = (Response.forbidden, db)) ∧
      (∀ method pk input v, rent_edit db u method pk input v = (Response.forbidden, db)) ∧
      (∀ method pk input v, maintenance_edit db u method pk input v = (Response.forbidden, db)) ∧
      (∀ method pk, property_delete db u method pk = (Response.forbidden, db)) ∧
      (∀ method pk, tenant_delete db u method pk = (Response.forbidden, db)) ∧
      (∀ method pk, rent_delete db u method pk = (Response.forbidden, db)) ∧
      (∀ method pk, maintenance_delete db u method pk = (Response.forbidden, db))) := by
  constructor
  · unfold can_manage
    cases hr : (get_role db u).1 <;> simp [hr]
  · intro h
    have hc := can_manage_false_state h
    refine ⟨fun method input v => ?_, fun method input v today fail => ?_,
      fun method input v => ?_, fun method input v => ?_, fun method pk input v => ?_,
      fun method pk input v => ?_, fun method pk input v => ?_, fun method pk input v => ?_,
      fun method pk => ?_, fun method pk => ?_, fun method pk => ?_, fun method pk => ?_⟩ <;>
      simp [property_create, tenant_create, rent_create, maintenance_create,
        property_edit, tenant_edit, rent_edit, maintenance_edit,
        property_delete, tenant_delete, rent_delete, maintenance_delete, hc]

/-- Witness for claim C3: tenant-role user 4 cannot manage, and a
concrete delete attempt is rejected with Forbidden, store unchanged. -/
theorem claim_C3_witness :
    (can_manage exScopeDb 4).1 = false ∧
    property_delete exScopeDb 4 Method.POST 10 = (Response.forbidden, exScopeDb) := by
  refine ⟨by decide, ?_⟩
  exact ((claim_C3 exScopeDb 4).2 (by decide)).2.2.2.2.2.2.2.2.1 Method.POST 10

theorem lateMatch_after_mark (rp : RentPaymentR) (today : Date) :
    lateMatch (if lateMatch rp today then { rp with status := RentStatus.LATE } else rp)
      today = false := by
  by_cases h : lateMatch rp today
  · rw [if_pos h]
    simp [lateMatch]
  · rw [if_neg h]
    simpa using h

theorem mark_rent_late_noop (db : DB) (today : Date)
    (h : ∀ rp ∈ db.rentPayments, lateMatch rp today = false) :
    mark_rent_late db today false = (0, db) := by
  have hfil : db.rentPayments.filter (fun rp => lateMatch rp today) = [] := by
    rw [List.filter_eq_nil_iff]
    intro a ha
    simp [h a ha]
  have hmap : db.rentPayments.map
      (fun rp => if lateMatch rp today then { rp with status := RentStatus.LATE } else rp) =
        db.rentPayments := by
    conv_rhs => rw [← List.map_id db.rentPayments]
    exact List.map_congr_left (fun a ha => by simp [h a ha])
  simp [mark_rent_late, hfil, hmap]

/-- Claim C8: the mark-rent-late job sets status LATE on exactly the DUE
rows whose due date is strictly before today, touching no other row or
field; dry-run reports the matching count and mutates nothing; and a
second run the same day is a no-op with count 0. -/
theorem claim_C8 (db : DB) (today : Date) :
    mark_rent_late db today true =
      ((db.rentPayments.filter (fun rp => lateMatch rp today)).length, db) ∧
    mark_rent_late db today false =
      ((db.rentPayments.filter (fun rp => lateMatch rp today)).length,
        { db with
          rentPayments :=
            db.rentPayments.map
              (fun rp =>
                if lateMatch rp today then { rp with status := RentStatus.LATE } else rp) }) ∧
    mark_rent_late (mark_rent_late db today false).2 today false =
      (0, (mark_rent_late db today false).2) := by
  refine ⟨rfl, rfl, ?_⟩
  apply mark_rent_late_noop
  intro rp hrp
  have hpay : (mark_rent_late db today false).2.rentPayments =
      db.rentPayments.map
        (fun rp => if lateMatch rp today then { rp with status := RentStatus.LATE } else rp) :=
    rfl
  rw [hpay, List.mem_map] at hrp
  obtain ⟨a, _, ha⟩ := hrp
  rw [← ha]
  exact lateMatch_after_mark a today

/-- Claim C9: for an authenticated user with no UserProfile row, any
role resolution — the read-only property list view included — creates a
LANDLORD profile as a side effect, and the user is thereafter scoped as
a LANDLORD. -/
theorem claim_C9 (db : DB) (u : Nat)
    (h : db.profiles.find? (fun p => p.user == u) = none) :
    get_role db u =
      (Role.LANDLORD,
        { db with profiles := db.profiles ++ [{ user := u, role := Role.LANDLORD }] }) ∧
    (properties_list db u).2 =
      { db with profiles := db.profiles ++ [{ user := u, role := Role.LANDLORD }] } ∧
    (properties_list db u).1 = db.properties.filter (fun p => p.owner == u) ∧
    (get_role (properties_list db u).2 u).1 = Role.LANDLORD := by
  have hrole : get_role db u =
      (Role.LANDLORD,
        { db with profiles := db.profiles ++ [{ user := u, role := Role.LANDLORD }] }) := by
    simp [get_role, h]
  refine ⟨hrole, ?_, ?_, ?_⟩
  · simp [properties_list, property_queryset, hrole]
  · simp [properties_list, property_queryset, hrole]
  · simp only [properties_list, property_queryset, hrole]
    simp [get_role, List.find?_append, h]

/-- Witness for claim C9 on the profile-free sample store. -/
theorem claim_C9_witness :
    (properties_list exNoProfileDb 7).2 =
      { exNoProfileDb with
        profiles := exNoProfileDb.profiles ++ [{ user := 7, role := Role.LANDLORD }] } ∧
    (get_role (properties_list exNoProfileDb 7).2 7).1 = Role.LANDLORD := by
  have h := claim_C9 exNoProfileDb 7 (by rfl)
  exact ⟨h.2.1, h.2.2.2⟩

/-- Claim C10: on each delete endpoint, a GET by an authorized user for
an in-scope record changes nothing and renders the confirmation page;
the record disappears only on POST. -/
theorem claim_C10 (db : DB) (u : Nat) (pr : UserProfileR)
    (hf : db.profiles.find? (fun p => p.user == u) = some pr)
    (hr : pr.role = Role.LANDLORD ∨ pr.role = Role.MANAGER) :
    (∀ pk obj, (property_queryset db u).1.find? (fun p => p.id == pk) = some obj →
      property_delete db u Method.GET pk = (Response.page, db) ∧
      (property_delete db u Method.POST pk).1 = Response.redirect ∧
      (property_delete db u Method.POST pk).2.properties.find? (fun p => p.id == pk) = none) ∧
    (∀ pk obj, (tenant_queryset db u).1.find? (fun t => t.id == pk) = some obj →
      tenant_delete db u Method.GET pk = (Response.page, db) ∧
      (tenant_delete db u Method.POST pk).1 = Response.redirect ∧
      (tenant_delete db u Method.POST pk).2.tenants.find? (fun t => t.id == pk) = none) ∧
    (∀ pk obj, (rent_queryset db u).1.find? (fun rp => rp.id == pk) = some obj →
      rent_delete db u Method.GET pk = (Response.page, db) ∧
      (rent_delete db u Method.POST pk).1 = Response.redirect ∧
      (rent_delete db u Method.POST pk).2.rentPayments.find? (fun rp => rp.id == pk) = none) ∧
    (∀ pk obj, (maintenance_queryset db u).1.find? (fun m => m.id == pk) = some obj →
      maintenance_delete db u Method.GET pk = (Response.page, db) ∧
      (maintenance_delete db u Method.POST pk).1 = Response.redirect ∧
      (maintenance_delete db u Method.POST pk).2.maintenance.find? (fun m => m.id == pk)
        = none) := by
  have hc := can_manage_true_state hf hr
  refine ⟨fun pk obj h => ?_, fun pk obj h => ?_, fun pk obj h => ?_, fun pk obj h => ?_⟩
  · refine ⟨?_, ?_, ?_⟩ <;>
      simp [property_delete, hc, h, property_queryset_snd hf, deletePropertyCascade,
        List.find?_eq_none, List.mem_filter]
  · refine ⟨?_, ?_, ?_⟩ <;>
      simp [tenant_delete, hc, h, tenant_queryset_snd hf, deleteTenantCascade,
        List.find?_eq_none, List.mem_filter]
  · refine ⟨?_, ?_, ?_⟩ <;>
      simp [rent_delete, hc, h, rent_queryset_snd hf, List.find?_eq_none, List.mem_filter]
  · refine ⟨?_, ?_, ?_⟩ <;>
      simp [maintenance_delete, hc, h, maintenance_queryset_snd hf, List.find?_eq_none,
        List.mem_filter]

/-- Witness for claim C10: landlord 1 GETs the delete pages of property
10, tenant 20, rent row 25 and request 26 without any state change, and
POST removes the rent row. -/
theorem claim_C10_witness :
    property_delete exScopeDb 1 Method.GET 10 = (Response.page, exScopeDb) ∧
    tenant_delete exScopeDb 1 Method.GET 20 = (Response.page, exScopeDb) ∧
    rent_delete exScopeDb 1 Method.GET 25 = (Response.page, exScopeDb) ∧
    maintenance_delete exScopeDb 1 Method.GET 26 = (Response.page, exScopeDb) ∧
    (rent_delete exScopeDb 1 Method.POST 25).2.rentPayments.find? (fun rp => rp.id == 25)
      = none := by
  have h := claim_C10 exScopeDb 1 { user := 1, role := Role.LANDLORD } (by rfl) (Or.inl rfl)
  refine ⟨(h.1 10 exProperty10 (by decide)).1, (h.2.1 20 exTenant20 (by decide)).1,
    (h.2.2.1 25 exRent25 (by decide)).1, (h.2.2.2 26 exMaint26 (by decide)).1,
    (h.2.2.1 25 exRent25 (by decide)).2.2⟩

/-- Counterexample to claim C7 as stated: for tenant-role user 4,
property 11 exists but is outside the visible set, yet `property_edit`
answers Forbidden (the `_can_manage` gate fires before the scoped
lookup), not NotFound. -/
theorem claim_C7_counterexample :
    exScopeDb.properties.any (fun p => p.id == 11) = true ∧
    (property_queryset exScopeDb 4).1.find? (fun p => p.id == 11) = none ∧
    property_edit exScopeDb 4 Method.GET 11 exPropertyInput true =
      (Response.forbidden, exScopeDb) ∧
    Response.forbidden ≠ Response.notFound := by
  decide

/-- Claim C7 (amended): a direct-object lookup on an id outside the
visible set behaves exactly like a nonexistent id.  For the detail view
(the property one — the only detail view) this outcome is NotFound for
every profiled user; for every edit and delete endpoint it is NotFound
for users passing `can_manage`, while a TENANT-role caller receives
Forbidden on every edit/delete for any id whatsoever — so existence is
never leaked. -/
theorem claim_C7 (db : DB) (u : Nat) (pr : UserProfileR)
    (hf : db.profiles.find? (fun p => p.user == u) = some pr) :
    (∀ pk, (property_queryset db u).1.find? (fun p => p.id == pk) = none →
      property_detail db u pk = (Response.notFound, db)) ∧
    (pr.role = Role.LANDLORD ∨ pr.role = Role.MANAGER →
      (∀ pk, (property_queryset db u).1.find? (fun p => p.id == pk) = none →
        (∀ method input v, property_edit db u method pk input v = (Response.notFound, db)) ∧
        (∀ method, property_delete db u method pk = (Response.notFound, db))) ∧
      (∀ pk, (tenant_queryset db u).1.find? (fun t => t.id == pk) = none →
        (∀ method input v, tenant_edit db u method pk input v = (Response.notFound, db)) ∧
        (∀ method, tenant_delete db u method pk = (Response.notFound, db))) ∧
      (∀ pk, (rent_queryset db u).1.find? (fun rp => rp.id == pk) = none →
        (∀ method input v, rent_edit db u method pk input v = (Response.notFound, db)) ∧
        (∀ method, rent_delete db u method pk = (Response.notFound, db))) ∧
      (∀ pk, (maintenance_queryset db u).1.find? (fun m => m.id == pk) = none →
        (∀ method input v, maintenance_edit db u method pk input v
          = (Response.notFound, db)) ∧
        (∀ method, maintenance_delete db u method pk = (Response.notFound, db)))) ∧
    (pr.role = Role.TENANT →
      ∀ pk,
        (∀ method input v, property_edit db u method pk input v
          = (Response.forbidden, db)) ∧
        (∀ method input v, tenant_edit db u method pk input v = (Response.forbidden, db)) ∧
        (∀ method input v, rent_edit db u method pk input v = (Response.forbidden, db)) ∧
        (∀ method input v, maintenance_edit db u method pk input v
          = (Response.forbidden, db)) ∧
        (∀ method, property_delete db u method pk = (Response.forbidden, db)) ∧
        (∀ method, tenant_delete db u method pk = (Response.forbidden, db)) ∧
        (∀ method, rent_delete db u method pk = (Response.forbidden, db)) ∧
        (∀ method, maintenance_delete db u method pk = (Response.forbidden, db))) := by
  refine ⟨fun pk h => ?_, fun hr => ?_, fun hr pk => ?_⟩
  · simp [property_detail, h, property_queryset_snd hf]
  · have hc := can_manage_true_state hf hr
    refine ⟨fun pk h => ?_, fun pk h => ?_, fun pk h => ?_, fun pk h => ?_⟩
    · exact ⟨fun method input v => by simp [property_edit, hc, h, property_queryset_snd hf],
        fun method => by simp [property_delete, hc, h, property_queryset_snd hf]⟩
    · exact ⟨fun method input v => by simp [tenant_edit, hc, h, tenant_queryset_snd hf],
        fun method => by simp [tenant_delete, hc, h, tenant_queryset_snd hf]⟩
    · exact ⟨fun method input v => by simp [rent_edit, hc, h, rent_queryset_snd hf],
        fun method => by simp [rent_delete, hc, h, rent_queryset_snd hf]⟩
    · exact ⟨fun method input v =>
          by simp [maintenance_edit, hc, h, maintenance_queryset_snd hf],
        fun method => by simp [maintenance_delete, hc, h, maintenance_queryset_snd hf]⟩
  · have hc : can_manage db u = (false, db) := by
      rw [can_manage_found hf, hr]
      rfl
    exact ⟨fun method input v => by simp [property_edit, hc],
      fun method input v => by simp [tenant_edit, hc],
      fun method input v => by simp [rent_edit, hc],
      fun method input v => by simp [maintenance_edit, hc],
      fun method => by simp [property_delete, hc],
      fun method => by simp [tenant_delete, hc],
      fun method => by simp [rent_delete, hc],
      fun method => by simp [maintenance_delete, hc]⟩

/-- Witness for the amended claim C7: manager 3 looking up nonexistent
id 99 gets NotFound from the detail view and all eight edit/delete
endpoints alike; tenant-scope user 4 gets NotFound on the detail view of
the existing out-of-scope id 11 and Forbidden on the edit and delete
endpoints. -/
theorem claim_C7_witness :
    property_detail exScopeDb 3 99 = (Response.notFound, exScopeDb) ∧
    property_edit exScopeDb 3 Method.GET 99 exPropertyInput true
      = (Response.notFound, exScopeDb) ∧
    tenant_edit exScopeDb 3 Method.GET 99 exTenantInput true
      = (Response.notFound, exScopeDb) ∧
    rent_edit exScopeDb 3 Method.GET 99 exRentInputBadFk true
      = (Response.notFound, exScopeDb) ∧
    maintenance_edit exScopeDb 3 Method.GET 99 exMaintInputBadFk true
      = (Response.notFound, exScopeDb) ∧
    property_delete exScopeDb 3 Method.POST 99 = (Response.notFound, exScopeDb) ∧
    tenant_delete exScopeDb 3 Method.POST 99 = (Response.notFound, exScopeDb) ∧
    rent_delete exScopeDb 3 Method.POST 99 = (Response.notFound, exScopeDb) ∧
    maintenance_delete exScopeDb 3 Method.POST 99 = (Response.notFound, exScopeDb) ∧
    property_detail exScopeDb 4 11 = (Response.notFound, exScopeDb) ∧
    property_edit exScopeDb 4 Method.GET 11 exPropertyInput true
      = (Response.forbidden, exScopeDb) ∧
    tenant_delete exScopeDb 4 Method.POST 20 = (Response.forbidden, exScopeDb) := by
  have h3 := claim_C7 exScopeDb 3 { user := 3, role := Role.MANAGER } (by rfl)
  have hm := h3.2.1 (Or.inr rfl)
  have h4 := claim_C7 exScopeDb 4 { user := 4, role := Role.TENANT } (by rfl)
  exact ⟨h3.1 99 (by decide),
    (hm.1 99 (by decide)).1 Method.GET exPropertyInput true,
    (hm.2.1 99 (by decide)).1 Method.GET exTenantInput true,
    (hm.2.2.1 99 (by decide)).1 Method.GET exRentInputBadFk true,
    (hm.2.2.2 99 (by decide)).1 Method.GET exMaintInputBadFk true,
    (hm.1 99 (by decide)).2 Method.POST,
    (hm.2.1 99 (by decide)).2 Method.POST,
    (hm.2.2.1 99 (by decide)).2 Method.POST,
    (hm.2.2.2 99 (by decide)).2 Method.POST,
    h4.1 11 (by decide),
    (h4.2.2 rfl 11).1 Method.GET exPropertyInput true,
    (h4.2.2 rfl 20).2.2.2.2.2.1 Method.POST⟩

/-- Claim C6: a create or edit whose client-supplied foreign key falls
outside the caller's allowed queryset is rejected with a field-level
validation error — the form is re-presented and the store is not
written. -/
theorem claim_C6 (db : DB) (u : Nat) (pr : UserProfileR)
    (hf : db.profiles.find? (fun p => p.user == u) = some pr)
    (hr : pr.role = Role.LANDLORD ∨ pr.role = Role.MANAGER) :
    (∀ input v today fail,
      (manageable_property_queryset db u).1.any
          (fun p => p.id == TenantInput.property input) = false →
      tenant_create db u Method.POST input v today fail = (Response.formWithErrors, db)) ∧
    (∀ input v,
      (tenant_queryset db u).1.any (fun t => t.id == RentInput.tenant input) = false →
      rent_create db u Method.POST input v = (Response.formWithErrors, db)) ∧
    (∀ input v,
      (manageable_property_queryset db u).1.any
          (fun p => p.id == MaintInput.property input) = false →
      maintenance_create db u Method.POST input v = (Response.formWithErrors, db)) ∧
    (∀ pk obj input v,
      (tenant_queryset db u).1.find? (fun t => t.id == pk) = some obj →
      (manageable_property_queryset db u).1.any
          (fun p => p.id == TenantInput.property input) = false →
      tenant_edit db u Method.POST pk input v = (Response.formWithErrors, db)) ∧
    (∀ pk obj input v,
      (rent_queryset db u).1.find? (fun rp => rp.id == pk) = some obj →
      (tenant_queryset db u).1.any (fun t => t.id == RentInput.tenant input) = false →
      rent_edit db u Method.POST pk input v = (Response.formWithErrors, db)) ∧
    (∀ pk obj input v,
      (maintenance_queryset db u).1.find? (fun m => m.id == pk) = some obj →
      (manageable_property_queryset db u).1.any
          (fun p => p.id == MaintInput.property input) = false →
      maintenance_edit db u Method.POST pk input v = (Response.formWithErrors, db)) := by
  have hc := can_manage_true_state hf hr
  refine ⟨fun input v today fail h => ?_, fun input v h => ?_, fun input v h => ?_,
    fun pk obj input v hfind h => ?_, fun pk obj input v hfind h => ?_,
    fun pk obj input v hfind h => ?_⟩
  · simp [tenant_create, hc, h, manageable_property_queryset_snd hf]
  · simp [rent_create, hc, h, tenant_queryset_snd hf]
  · simp [maintenance_create, hc, h, manageable_property_queryset_snd hf]
  · simp [tenant_edit, hc, h, hfind, tenant_queryset_snd hf,
      manageable_property_queryset_snd hf]
  · simp [rent_edit, hc, h, hfind, rent_queryset_snd hf, tenant_queryset_snd hf]
  · simp [maintenance_edit, hc, h, hfind, maintenance_queryset_snd hf,
      manageable_property_queryset_snd hf]

/-- Witness for claim C6: landlord 1 submitting foreign keys outside
their scope (property 11, nonexistent tenant 99) has every create and
edit rejected with the re-presented form and an unchanged store. -/
theorem claim_C6_witness :
    tenant_create exScopeDb 1 Method.POST exTenantInputBadFk true
        { year := 2025, month := 6, day := 1 } (fun _ => false)
      = (Response.formWithErrors, exScopeDb) ∧
    rent_create exScopeDb 1 Method.POST exRentInputBadFk true
      = (Response.formWithErrors, exScopeDb) ∧
    maintenance_create exScopeDb 1 Method.POST exMaintInputBadFk true
      = (Response.formWithErrors, exScopeDb) ∧
    tenant_edit exScopeDb 1 Method.POST 20 exTenantInputBadFk true
      = (Response.formWithErrors, exScopeDb) ∧
    rent_edit exScopeDb 1 Method.POST 25 exRentInputBadFk true
      = (Response.formWithErrors, exScopeDb) ∧
    maintenance_edit exScopeDb 1 Method.POST 26 exMaintInputBadFk true
      = (Response.formWithErrors, exScopeDb) := by
  have h := claim_C6 exScopeDb 1 { user := 1, role := Role.LANDLORD } (by rfl) (Or.inl rfl)
  exact ⟨h.1 exTenantInputBadFk true { year := 2025, month := 6, day := 1 } (fun _ => false)
      (by decide),
    h.2.1 exRentInputBadFk true (by decide),
    h.2.2.1 exMaintInputBadFk true (by decide),
    h.2.2.2.1 20 exTenant20 exTenantInputBadFk true (by decide) (by decide),
    h.2.2.2.2.1 25 exRent25 exRentInputBadFk true (by decide) (by decide),
    h.2.2.2.2.2 26 exMaint26 exMaintInputBadFk true (by decide) (by decide)⟩

theorem scheduleLoopE_error (t : Nat) (rent : Int) (sm sy : Nat) (fail : Nat → Bool)
    (is : List Nat) :
    ∀ db : DB, (∃ i ∈ is, fail i = true) →
      scheduleLoopE t rent sm sy fail is db = Except.error () := by
  induction is with
  | nil => intro db h; simp at h
  | cons j js ih =>
      intro db h
      by_cases hj : fail j
      · simp [scheduleLoopE, hj]
      · obtain ⟨i, hmem, hi⟩ := h
        rcases List.mem_cons.mp hmem with hij | hmem'
        · exact absurd (hij ▸ hi) hj
        · simp only [scheduleLoopE, if_neg hj]
          exact ih _ ⟨i, hmem', hi⟩

/-- Claim C4: the tenant insert and the six payment upserts form one
atomic transaction — when a payment insert raises, the whole transaction
rolls back, no tenant row and no payment rows persist, and the caller
gets the form back with a single aggregate error on an unchanged store. -/
theorem claim_C4 (db : DB) (u : Nat) (pr : UserProfileR) (input : TenantInput)
    (today : Date) (fail : Nat → Bool)
    (hf : db.profiles.find? (fun p => p.user == u) = some pr)
    (hr : pr.role = Role.LANDLORD ∨ pr.role = Role.MANAGER)
    (hok : (manageable_property_queryset db u).1.any
      (fun p => p.id == TenantInput.property input) = true)
    (hfail : ∃ i, i < 6 ∧ fail i = true) :
    tenant_create db u Method.POST input true today fail = (Response.formWithErrors, db) := by
  have hc := can_manage_true_state hf hr
  obtain ⟨i, hi6, hi⟩ := hfail
  have herr := scheduleLoopE_error (db.nextId) input.monthly_rent today.month today.year fail
    (List.range 6)
  simp only [tenant_create, hc, manageable_property_queryset_snd hf]
  simp only [hok, Bool.and_true, Bool.not_true, Bool.true_and, if_true, Bool.false_eq_true,
    if_false, reduceIte]
  rw [herr _ ⟨i, List.mem_range.mpr hi6, hi⟩]

/-- Witness for claim C4: landlord 1 creates a tenant on property 10
while the 4th of the six payment inserts faults; the request yields the
re-presented form and the store is exactly the pre-request one — no
tenant row, no payment rows. -/
theorem claim_C4_witness :
    tenant_create exScopeDb 1 Method.POST exTenantInput true
        { year := 2025, month := 11, day := 3 } (fun i => i == 3)
      = (Response.formWithErrors, exScopeDb) :=
  claim_C4 exScopeDb 1 { user := 1, role := Role.LANDLORD } exTenantInput
    { year := 2025, month := 11, day := 3 } (fun i => i == 3) (by rfl) (Or.inl rfl)
    (by decide) ⟨3, by decide, by decide⟩

theorem period_inj {sm sy i j : Nat} (hm : periodMonth sm i = periodMonth sm j)
    (hy : periodYear sm sy i = periodYear sm sy j) : i = j := by
  unfold periodMonth at hm
  unfold periodYear at hy
  omega

theorem pairwise_range6_periods (sm sy : Nat) :
    (List.range 6).Pairwise
      (fun i j => ¬(periodMonth sm i = periodMonth sm j ∧
        periodYear sm sy i = periodYear sm sy j)) := by
  exact (List.pairwise_lt_range 6).imp
    (fun hij h => absurd (period_inj h.1 h.2) (Nat.ne_of_lt hij))

theorem scheduleLoop_fold (t : Nat) (rent : Int) (sm sy : Nat) (is : List Nat) :
    ∀ db : DB,
      is.Pairwise (fun i j => ¬(periodMonth sm i = periodMonth sm j ∧
        periodYear sm sy i = periodYear sm sy j)) →
      (∀ i ∈ is, hasPeriod db t (periodMonth sm i) (periodYear sm sy i) = false) →
      is.foldl (scheduleStep t rent sm sy) db =
        { db with
          rentPayments := db.rentPayments ++ scheduleRows t rent sm sy db.nextId is,
          nextId := db.nextId + is.length } := by
  induction is with
  | nil => intro db _ _; simp [scheduleRows]
  | cons i is ih =>
      intro db hpw habs
      have h0 := habs i (List.mem_cons_self i is)
      have hstep : scheduleStep t rent sm sy db i =
          { db with
            rentPayments := db.rentPayments ++ [scheduleRow t rent sm sy db.nextId i],
            nextId := db.nextId + 1 } := by
        rw [scheduleStep, rentGetOrCreate, if_neg (by simp [h0])]
        rfl
      have habs' : ∀ j ∈ is,
          hasPeriod { db with
              rentPayments := db.rentPayments ++ [scheduleRow t rent sm sy db.nextId i],
              nextId := db.nextId + 1 } t (periodMonth sm j) (periodYear sm sy j) = false := by
        intro j hj
        have hdbj := habs j (List.mem_cons_of_mem _ hj)
        have hne := (List.pairwise_cons.mp hpw).1 j hj
        rw [hasPeriod, List.any_append]
        rw [hasPeriod] at hdbj
        rw [hdbj]
        simp [scheduleRow]
        intro hm hy
        exact absurd ⟨hm, hy⟩ hne
      rw [List.foldl_cons, hstep, ih _ (List.pairwise_cons.mp hpw).2 habs']
      have harith : db.nextId + 1 + is.length = db.nextId + (is.length + 1) := by omega
      simp [scheduleRows, List.append_assoc, harith]

theorem filter_scheduleRows (t : Nat) (rent : Int) (sm sy : Nat) :
    ∀ (is : List Nat) (n : Nat),
      (scheduleRows t rent sm sy n is).filter (fun rp => rp.tenant == t) =
        scheduleRows t rent sm sy n is := by
  intro is
  induction is with
  | nil => intro n; rfl
  | cons i is ih => intro n; simp [scheduleRows, scheduleRow, List.filter_cons, ih]

theorem scheduleRows_range6 (t : Nat) (rent : Int) (sm sy n : Nat) :
    scheduleRows t rent sm sy n (List.range 6) =
      (List.range 6).map (fun i =>
        { id := n + i, tenant := t, period_month := periodMonth sm i,
          period_year := periodYear sm sy i,
          due_date := { year := periodYear sm sy i, month := periodMonth sm i, day := 1 },
          amount_due := rent, status := RentStatus.DUE, paid_date := none,
          notes := "" }) := by
  norm_num [List.range_succ, scheduleRows, scheduleRow]

/-- Claim C1: schedule generation for a tenant with no pre-existing
payment rows produces exactly six rows, one per slot `i ∈ 0..5`, with
month `((start_month - 1 + i) % 12) + 1`, year
`start_year + (start_month - 1 + i) / 12`, due date the first day of
that period, amount the tenant's monthly rent and status DUE; in
particular a start month of 11 rolls over to months 1..4 of the next
year. -/
theorem claim_C1 (db : DB) (t : Nat) (rent : Int) (sm sy : Nat)
    (habs : ∀ rp ∈ db.rentPayments, rp.tenant ≠ t) :
    (generateSchedule db t rent sm sy).rentPayments.filter (fun rp => rp.tenant == t) =
      (List.range 6).map (fun i =>
        { id := db.nextId + i, tenant := t,
          period_month := ((sm - 1 + i) % 12) + 1,
          period_year := sy + (sm - 1 + i) / 12,
          due_date := { year := sy + (sm - 1 + i) / 12,
                        month := ((sm - 1 + i) % 12) + 1, day := 1 },
          amount_due := rent, status := RentStatus.DUE, paid_date := none,
          notes := "" }) ∧
    (List.range 6).map (fun i => (periodMonth 11 i, periodYear 11 sy i)) =
      [(11, sy), (12, sy), (1, sy + 1), (2, sy + 1), (3, sy + 1), (4, sy + 1)] := by
  constructor
  · have hall : ∀ i ∈ List.range 6,
        hasPeriod db t (periodMonth sm i) (periodYear sm sy i) = false := by
      intro i _
      rw [hasPeriod, List.any_eq_false]
      intro rp hrp
      simp [habs rp hrp]
    rw [generateSchedule,
      scheduleLoop_fold t rent sm sy (List.range 6) db (pairwise_range6_periods sm sy) hall]
    have hdbfil : db.rentPayments.filter (fun rp => rp.tenant == t) = [] := by
      rw [List.filter_eq_nil_iff]
      intro rp hrp
      simp [habs rp hrp]
    simp only [List.filter_append, hdbfil, List.nil_append, filter_scheduleRows]
    rw [scheduleRows_range6]
    simp only [periodMonth, periodYear]
  · norm_num [List.range_succ, periodMonth, periodYear]

/-- Witness for claim C1 on the sample store: a schedule for fresh
tenant id 999 starting November 2025 yields the six expected rows. -/
theorem claim_C1_witness :
    (generateSchedule exScopeDb 999 1000 11 2025).rentPayments.filter
        (fun rp => rp.tenant == 999) =
      (List.range 6).map (fun i =>
        { id := exScopeDb.nextId + i, tenant := 999,
          period_month := ((11 - 1 + i) % 12) + 1,
          period_year := 2025 + (11 - 1 + i) / 12,
          due_date := { year := 2025 + (11 - 1 + i) / 12,
                        month := ((11 - 1 + i) % 12) + 1, day := 1 },
          amount_due := 1000, status := RentStatus.DUE, paid_date := none,
          notes := "" }) :=
  (claim_C1 exScopeDb 999 1000 11 2025 (by decide)).1

theorem hasPeriod_scheduleStep (t : Nat) (rent : Int) (sm sy : Nat) (db : DB) (j : Nat)
    {t' m y : Nat} (h : hasPeriod db t' m y = true) :
    hasPeriod (scheduleStep t rent sm sy db j) t' m y = true := by
  rw [scheduleStep, rentGetOrCreate]
  split
  · exact h
  · rw [hasPeriod, List.any_append]
    rw [hasPeriod] at h
    rw [h]
    rfl

theorem hasPeriod_step_self (t : Nat) (rent : Int) (sm sy : Nat) (db : DB) (i : Nat) :
    hasPeriod (scheduleStep t rent sm sy db i) t (periodMonth sm i) (periodYear sm sy i)
      = true := by
  rw [scheduleStep, rentGetOrCreate]
  split
  · assumption
  · simp [hasPeriod, List.any_append]

theorem hasPeriod_foldl (t : Nat) (rent : Int) (sm sy : Nat) (is : List Nat) :
    ∀ (db : DB) {t' m y : Nat}, hasPeriod db t' m y = true →
      hasPeriod (is.foldl (scheduleStep t rent sm sy) db) t' m y = true := by
  induction is with
  | nil => intro db _ _ _ h; exact h
  | cons j js ih =>
      intro db t' m y h
      rw [List.foldl_cons]
      exact ih _ (hasPeriod_scheduleStep t rent sm sy db j h)

theorem hasPeriod_after_fold (t : Nat) (rent : Int) (sm sy : Nat) (is : List Nat) :
    ∀ db : DB, ∀ i ∈ is,
      hasPeriod (is.foldl (scheduleStep t rent sm sy) db) t (periodMonth sm i)
        (periodYear sm sy i) = true := by
  induction is with
  | nil => intro db i hi; simp at hi
  | cons j js ih =>
      intro db i hi
      rw [List.foldl_cons]
      rcases List.mem_cons.mp hi with hij | hi'
      · subst hij
        exact hasPeriod_foldl t rent sm sy js _ (hasPeriod_step_self t rent sm sy db i)
      · exact ih _ i hi'

theorem fold_fixed_of_present (t : Nat) (rent : Int) (sm sy : Nat) (is : List Nat) :
    ∀ db : DB,
      (∀ i ∈ is, hasPeriod db t (periodMonth sm i) (periodYear sm sy i) = true) →
      is.foldl (scheduleStep t rent sm sy) db = db := by
  induction is with
  | nil => intro db _; rfl
  | cons j js ih =>
      intro db h
      have hstep : scheduleStep t rent sm sy db j = db := by
        rw [scheduleStep, rentGetOrCreate, if_pos (h j (List.mem_cons_self j js))]
      rw [List.foldl_cons, hstep]
      exact ih db (fun i hi => h i (List.mem_cons_of_mem _ hi))

theorem mem_fold_payments (t : Nat) (rent : Int) (sm sy : Nat) (is : List Nat) :
    ∀ (db : DB) (rp : RentPaymentR), rp ∈ db.rentPayments →
      rp ∈ (is.foldl (scheduleStep t rent sm sy) db).rentPayments := by
  induction is with
  | nil => intro db rp h; exact h
  | cons j js ih =>
      intro db rp h
      rw [List.foldl_cons]
      apply ih
      rw [scheduleStep, rentGetOrCreate]
      split
      · exact h
      · exact List.mem_append_left _ h

theorem pairwise_fold_payments (t : Nat) (rent : Int) (sm sy : Nat) (is : List Nat) :
    ∀ db : DB, db.rentPayments.Pairwise keyDistinct →
      (is.foldl (scheduleStep t rent sm sy) db).rentPayments.Pairwise keyDistinct := by
  induction is with
  | nil => intro db h; exact h
  | cons j js ih =>
      intro db h
      rw [List.foldl_cons]
      apply ih
      rw [scheduleStep, rentGetOrCreate]
      split
      · exact h
      · rename_i hnew
        rw [List.pairwise_append]
        refine ⟨h, List.pairwise_singleton _ _, ?_⟩
        intro a ha b hb
        rw [List.mem_singleton] at hb
        subst hb
        rw [Bool.not_eq_true, hasPeriod, List.any_eq_false] at hnew
        have := hnew a ha
        simp at this ⊢
        tauto

/-- Claim C5: schedule generation is an upsert-if-absent per
(tenant, month, year) key — running it twice with the same start period
equals running it once, every pre-existing row (a PAID one included)
survives field-for-field, and key uniqueness of the payment table is
preserved, so no duplicate periods are ever created. -/
theorem claim_C5 (db : DB) (t : Nat) (rent : Int) (sm sy : Nat) :
    generateSchedule (generateSchedule db t rent sm sy) t rent sm sy =
      generateSchedule db t rent sm sy ∧
    (∀ rp ∈ db.rentPayments, rp ∈ (generateSchedule db t rent sm sy).rentPayments) ∧
    (db.rentPayments.Pairwise keyDistinct →
      (generateSchedule db t rent sm sy).rentPayments.Pairwise keyDistinct) := by
  refine ⟨?_, ?_, ?_⟩
  · rw [generateSchedule, generateSchedule]
    exact fold_fixed_of_present t rent sm sy (List.range 6) _
      (fun i hi => hasPeriod_after_fold t rent sm sy (List.range 6) db i hi)
  · exact fun rp h => mem_fold_payments t rent sm sy (List.range 6) db rp h
  · exact fun h => pairwise_fold_payments t rent sm sy (List.range 6) db h

/-- Witness for claim C5 on the sample store, starting at February 2025
so that the existing DUE row of tenant 20 occupies the first slot: the
second run is the first run, the old row survives, and the key-unique
invariant carries over. -/
theorem claim_C5_witness :
    generateSchedule (generateSchedule exScopeDb 20 1000 2 2025) 20 1000 2 2025 =
      generateSchedule exScopeDb 20 1000 2 2025 ∧
    exRent25 ∈ (generateSchedule exScopeDb 20 1000 2 2025).rentPayments ∧
    (generateSchedule exScopeDb 20 1000 2 2025).rentPayments.Pairwise keyDistinct := by
  have h := claim_C5 exScopeDb 20 1000 2 2025
  exact ⟨h.1, h.2.1 exRent25 (by decide), h.2.2 (by decide)⟩

end Propman
